import Mathlib

/-!
# Verification of the Intellisynth activity ledger and anomaly engine

Shallow embedding of `app/services/activity_logger.py` and
`app/services/anomaly_detection.py`.  Machine words are `Nat` reduced
`% 2^32` where the Python code relies on fixed-width hashing arithmetic
(inside `hashlib.sha256`, re-implemented here bit-for-bit); metric values,
rates and confidences are `ℚ` (Python floats never reach magnitudes where
rounding could flip any comparison proved below); `datetime` values are
represented by their ISO-8601 string (for the ledger) or by their value in
hours (for the anomaly windows), since the code only ever formats them,
compares them, or subtracts them.
-/

set_option maxRecDepth 1000000

namespace Intellisynth

/-! ## SHA-256 (the part of `hashlib` the code uses)

`ActivityLoggerService.generate_hash` is
`hashlib.sha256(activity_data.encode()).hexdigest()[:16]`.  We embed the
full FIPS 180-4 SHA-256 over the UTF-8 bytes of the input string. -/

/-- Reduce to a 32-bit word. -/
def w32 (x : Nat) : Nat := x % 4294967296

/-- Right rotation of a 32-bit word. -/
def rotr (n x : Nat) : Nat := w32 ((x >>> n) ||| (x <<< (32 - n)))

/-- SHA-256 big sigma 0. -/
def bsig0 (x : Nat) : Nat := (rotr 2 x) ^^^ (rotr 13 x) ^^^ (rotr 22 x)

/-- SHA-256 big sigma 1. -/
def bsig1 (x : Nat) : Nat := (rotr 6 x) ^^^ (rotr 11 x) ^^^ (rotr 25 x)

/-- SHA-256 small sigma 0. -/
def ssig0 (x : Nat) : Nat := (rotr 7 x) ^^^ (rotr 18 x) ^^^ (x >>> 3)

/-- SHA-256 small sigma 1. -/
def ssig1 (x : Nat) : Nat := (rotr 17 x) ^^^ (rotr 19 x) ^^^ (x >>> 10)

/-- SHA-256 round constants. -/
def K256 : List Nat :=
  [1116352408, 1899447441, 3049323471, 3921009573,
   961987163, 1508970993, 2453635748, 2870763221,
   3624381080, 310598401, 607225278, 1426881987,
   1925078388, 2162078206, 2614888103, 3248222580,
   3835390401, 4022224774, 264347078, 604807628,
   770255983, 1249150122, 1555081692, 1996064986,
   2554220882, 2821834349, 2952996808, 3210313671,
   3336571891, 3584528711, 113926993, 338241895,
   666307205, 773529912, 1294757372, 1396182291,
   1695183700, 1986661051, 2177026350, 2456956037,
   2730485921, 2820302411, 3259730800, 3345764771,
   3516065817, 3600352804, 4094571909, 275423344,
   430227734, 506948616, 659060556, 883997877,
   958139571, 1322822218, 1537002063, 1747873779,
   1955562222, 2024104815, 2227730452, 2361852424,
   2428436474, 2756734187, 3204031479, 3329325298]

/-- Working state of the compression function. -/
structure Sha256State where
  a : Nat
  b : Nat
  c : Nat
  d : Nat
  e : Nat
  f : Nat
  g : Nat
  h : Nat
deriving Repr, DecidableEq

/-- SHA-256 initial hash value. -/
def iv256 : Sha256State :=
  ⟨1779033703, 3144134277, 1013904242, 2773480762,
   1359893119, 2600822924, 528734635, 1541459225⟩

/-- One compression round with key constant `k` and schedule word `w`. -/
def sha256Round (s : Sha256State) (kw : Nat × Nat) : Sha256State :=
  let t1 := w32 (s.h + bsig1 s.e + ((s.e &&& s.f) ^^^ ((4294967295 - s.e) &&& s.g))
                  + kw.1 + kw.2)
  let t2 := w32 (bsig0 s.a + ((s.a &&& s.b) ^^^ (s.a &&& s.c) ^^^ (s.b &&& s.c)))
  ⟨w32 (t1 + t2), s.a, s.b, s.c, w32 (s.d + t1), s.e, s.f, s.g⟩

/-- Extend the 16 block words to the 64-word message schedule
(`fuel` more words to add). -/
def sha256Extend : Nat → List Nat → List Nat
  | 0, ws => ws
  | fuel + 1, ws =>
      let t := ws.length
      let nw := w32 (ssig1 (ws.getD (t - 2) 0) + ws.getD (t - 7) 0
                     + ssig0 (ws.getD (t - 15) 0) + ws.getD (t - 16) 0)
      sha256Extend fuel (ws ++ [nw])

/-- Compress one 512-bit block (given as 16 32-bit words) into the chaining
state. -/
def sha256Compress (s : Sha256State) (block : List Nat) : Sha256State :=
  let ws := sha256Extend 48 block
  let t := (K256.zip ws).foldl sha256Round s
  ⟨w32 (s.a + t.a), w32 (s.b + t.b), w32 (s.c + t.c), w32 (s.d + t.d),
   w32 (s.e + t.e), w32 (s.f + t.f), w32 (s.g + t.g), w32 (s.h + t.h)⟩

/-- Big-endian bytes of an 8-byte (length) field. -/
def be64 (n : Nat) : List Nat := (List.range 8).map (fun i => (n >>> ((7 - i) * 8)) % 256)

/-- SHA-256 padding: append `0x80`, zero bytes to 56 mod 64, and the
64-bit big-endian bit length. -/
def sha256Pad (msg : List Nat) : List Nat :=
  msg ++ [0x80] ++ List.replicate ((119 - msg.length % 64) % 64) 0
      ++ be64 (8 * msg.length)

/-- Group a byte list into 32-bit big-endian words (4 bytes each). -/
def bytesToWords : List Nat → List Nat
  | b0 :: b1 :: b2 :: b3 :: rest =>
      (b0 * 16777216 + b1 * 65536 + b2 * 256 + b3) :: bytesToWords rest
  | _ => []

/-- Split a word list into blocks of 16 words.  Padding always yields a
multiple of 16 words, so the final catch-all case is unreachable on real
inputs. -/
def toBlocks : List Nat → List (List Nat)
  | [] => []
  | w0 :: w1 :: w2 :: w3 :: w4 :: w5 :: w6 :: w7 ::
    w8 :: w9 :: w10 :: w11 :: w12 :: w13 :: w14 :: w15 :: rest =>
      [w0, w1, w2, w3, w4, w5, w6, w7, w8, w9, w10, w11, w12, w13, w14, w15]
        :: toBlocks rest
  | ws => [ws]

/-- The eight digest words of SHA-256 of a byte string. -/
def sha256Words (msg : List Nat) : List Nat :=
  let s := (toBlocks (bytesToWords (sha256Pad msg))).foldl sha256Compress iv256
  [s.a, s.b, s.c, s.d, s.e, s.f, s.g, s.h]

/-- The sixteen lowercase hex digits, as `hexdigest` renders them. -/
def hexDigits : List Char := "0123456789abcdef".data

/-- One hex digit. -/
def hexChar (n : Nat) : Char := hexDigits.getD n '0'

/-- A 32-bit word as 8 hex characters, most significant nibble first. -/
def wordToHex (w : Nat) : List Char :=
  (List.range 8).map (fun i => hexChar ((w >>> ((7 - i) * 4)) % 16))

/-- The function `hashlib.sha256(bytes).hexdigest()`, as a character list. -/
def sha256Hex (msg : List Nat) : List Char :=
  ((sha256Words msg).map wordToHex).flatten

/-- UTF-8 encoding of one character (`str.encode`). -/
def encodeChar (c : Char) : List Nat :=
  let n := c.toNat
  if n < 128 then [n]
  else if n < 2048 then [192 ||| (n >>> 6), 128 ||| (n &&& 63)]
  else if n < 65536 then
    [224 ||| (n >>> 12), 128 ||| ((n >>> 6) &&& 63), 128 ||| (n &&& 63)]
  else
    [240 ||| (n >>> 18), 128 ||| ((n >>> 12) &&& 63),
     128 ||| ((n >>> 6) &&& 63), 128 ||| (n &&& 63)]

/-- UTF-8 bytes of a string (`str.encode()`). -/
def strBytes (s : String) : List Nat := (s.data.map encodeChar).flatten

/-- The method `ActivityLoggerService.generate_hash`: SHA-256 hexdigest of
the encoded string, truncated to its first 16 characters. -/
def generate_hash (activity_data : String) : String :=
  ⟨(sha256Hex (strBytes activity_data)).take 16⟩

/-! ## The ledger: `ActivityLoggerService.log_activity` / `verify_integrity`

A record's `timestamp` (a Python `datetime`) is held as its
`isoformat()` string, which is the only form in which the code hashes,
stores, or returns it.  The free-form `data` dict is a JSON-like value. -/

/-- A JSON-like payload value (the Python `data` dict entries). -/
inductive PVal where
  | num : ℚ → PVal
  | str : String → PVal
  | obj : List (String × PVal) → PVal

/-- Association-list lookup, the embedding of Python `dict.get(k)` /
`k in dict` for string-keyed dicts. -/
def alookup {α : Type} (m : List (String × α)) (k : String) : Option α :=
  (m.find? (fun p => p.1 == k)).map (fun p => p.2)

/-- A stored `ActivityLog` row (`app/models/activity_log.py`), which
`to_dict` converts field-for-field (rendering the timestamp with
`isoformat`, the form kept here). -/
structure ActivityRecord where
  id : String
  timestamp : String
  agent_id : String
  action_type : String
  severity : String
  message : String
  data : List (String × PVal)
  user_id : Option String
  session_id : Option String
  hash : String

/-- The hash input `f"{agent_id}-{action_type}-{timestamp.isoformat()}-{message}"`
shared by `log_activity` (line 89) and `verify_integrity` (line 470). -/
def hash_input (agent_id action_type timestamp message : String) : String :=
  agent_id ++ "-" ++ action_type ++ "-" ++ timestamp ++ "-" ++ message

/-- Add a key only when absent (`if k not in activity_data: ... = v`;
Python dicts append new keys at the end). -/
def set_default (d : List (String × PVal)) (k : String) (v : PVal) :
    List (String × PVal) :=
  if (alookup d k).isSome then d else d ++ [(k, v)]

/-- The zeroed `resource_usage` default of `log_activity`. -/
def default_resource_usage : PVal :=
  .obj [("cpu", .num 0), ("memory", .num 0), ("network", .num 0)]

/-- The `metadata` default of `log_activity`. -/
def default_metadata (action_type : String) : PVal :=
  .obj [("context", .str action_type), ("confidence", .num 1),
        ("impact_score", .num 5)]

/-- The payload-default block of `log_activity` (lines 70-86). -/
def with_payload_defaults (action_type : String) (d : List (String × PVal)) :
    List (String × PVal) :=
  let d1 := set_default d "execution_time" (.num 0)
  let d2 := set_default d1 "resource_usage" default_resource_usage
  set_default d2 "metadata" (default_metadata action_type)

/-- The caller-supplied arguments of `log_activity`. -/
structure LogInput where
  agent_id : String
  action_type : String
  message : String
  severity : String := "info"
  data : Option (List (String × PVal)) := none
  user_id : Option String := none
  session_id : Option String := none

/-- The embedding of `ActivityLoggerService._update_cache`. -/
def update_cache (cache : List ActivityRecord) (activity : ActivityRecord) :
    List ActivityRecord :=
  let c := cache ++ [activity]
  if 100 < c.length then c.drop (c.length - 100) else c

/-- What one `log_activity` call produces: the returned activity dict, the
cache afterwards, and whether the database transaction was rolled back. -/
structure LogOutcome where
  record : ActivityRecord
  cache : List ActivityRecord
  rolled_back : Bool

/-- The embedding of `ActivityLoggerService.log_activity`.  `ts` is the
ledger-assigned timestamp (its `isoformat()` string) and `ts_epoch` its
`timestamp()` rendering used inside the id; `db_ok` says whether the
database commit succeeds.  The function is total: the Python method
catches every storage exception, so it never raises to its caller. -/
def log_activity (cache : List ActivityRecord) (inp : LogInput)
    (ts ts_epoch : String) (db_ok : Bool) : LogOutcome :=
  let activity_data := with_payload_defaults inp.action_type (inp.data.getD [])
  let activity_hash := generate_hash (hash_input inp.agent_id inp.action_type ts inp.message)
  let db_activity : ActivityRecord :=
    { id := "activity-" ++ ts_epoch ++ "-" ++ String.mk (activity_hash.data.take 8)
      timestamp := ts
      agent_id := inp.agent_id
      action_type := inp.action_type
      severity := inp.severity
      message := inp.message
      data := activity_data
      user_id := inp.user_id
      session_id := inp.session_id
      hash := activity_hash }
  if db_ok then
    -- try branch: commit, then return db_activity.to_dict() and cache it
    { record := db_activity
      cache := update_cache cache db_activity
      rolled_back := false }
  else
    -- except branch: roll back, build the dict manually, cache it
    let activity : ActivityRecord :=
      { id := db_activity.id
        timestamp := ts
        agent_id := inp.agent_id
        action_type := inp.action_type
        severity := inp.severity
        message := inp.message
        data := activity_data
        user_id := inp.user_id
        session_id := inp.session_id
        hash := activity_hash }
    { record := activity
      cache := update_cache cache activity
      rolled_back := true }

/-- Whether a stored record's hash matches the hash recomputed from its
stored fields (the per-record check of `verify_integrity`). -/
def record_valid (a : ActivityRecord) : Bool :=
  a.hash == generate_hash (hash_input a.agent_id a.action_type a.timestamp a.message)

/-- The report `verify_integrity` returns (`verification_timestamp`, a wall
clock read, is omitted; `integrity_percentage` is kept as the exact rational
the code rounds to two decimals for display). -/
structure IntegrityReport where
  status : String
  total_records : Nat
  verified_records : Nat
  invalid_records : Nat
  integrity_percentage : ℚ
  system_hash : String
  invalid_hashes : List String

/-- The embedding of `ActivityLoggerService.verify_integrity` over the
stored ledger (the rows `db.query(ActivityLog).all()` returns, in storage
order, which is timestamp order for ledger-assigned timestamps). -/
def verify_integrity (ledger : List ActivityRecord) : IntegrityReport :=
  let verified_count := (ledger.filter (fun a => record_valid a)).length
  let invalid_hashes := (ledger.filter (fun a => !record_valid a)).map (fun a => a.id)
  let total_records := ledger.length
  let all_hashes := ledger.map (fun a => a.hash)
  { status := if invalid_hashes.length = 0 then "verified" else "compromised"
    total_records := total_records
    verified_records := verified_count
    invalid_records := invalid_hashes.length
    integrity_percentage :=
      if 0 < total_records then (verified_count : ℚ) / total_records * 100 else 100
    system_hash := generate_hash (String.join all_hashes)
    invalid_hashes := invalid_hashes.take 10 }

/-! ## The anomaly engine: `app/services/anomaly_detection.py`

The detectors read an activity dict only through `agent_id`,
`action_type`, `severity`, its parsed timestamp, and the payload entries
`data['execution_time']` and `data['metadata']['confidence']`; an
`Activity` carries exactly those projections, with the timestamp as a
rational number of hours (the code only subtracts timestamps and floors
them to five-minute boundaries).  Metric values, rates and confidences
are exact rationals.

A load-bearing fact about this module: `_learn_baseline_patterns`,
`_detect_activity_pattern_anomalies`, `_detect_behavioral_anomalies`,
`_detect_correlation_anomalies` and `_gather_system_metrics` each begin
with `await activity_logger.get_activities(...)` (lines 254, 332, 425,
497, 575), but `get_activities` (activity_logger.py line 310) is a plain
synchronous method returning a list, and awaiting a list raises
`TypeError` unconditionally.  Each call sits inside that method's own
`try/except`, so at runtime the query always fails: learning never
populates `pattern_cache`, the three querying detectors always return no
anomalies, and metrics gathering always degrades to zeros.  The ledger
query of each method is therefore embedded as an `Except` argument — the
`.error` case is the one the shipped code always takes, and the `.ok`
case is the method's post-query text, which is dead code; the `_run`
definitions below fix the argument to the error the `await` raises and
are the methods as they actually execute. -/

/-- An activity dict as the detectors read it. -/
structure Activity where
  agent_id : String
  action_type : String
  severity : String
  ts : ℚ
  execution_time : Option ℚ := none
  confidence : Option ℚ := none
deriving DecidableEq

/-- A value of the caller-supplied metrics dict; `other` stands for any
value failing the code's `isinstance(value, (int, float))` test. -/
inductive MetricValue where
  | num : ℚ → MetricValue
  | other : MetricValue
deriving DecidableEq

/-- The constructor parameters of `AnomalyDetectionService`, with their
default values. -/
structure Config where
  threshold_multiplier : ℚ := 2
  error_rate_threshold : ℚ := 0.2
  activity_multiplier_high : ℚ := 3
  activity_multiplier_low : ℚ := 0.2
  isolation_rate_threshold : ℚ := 0.7
deriving DecidableEq

/-- The default-constructed configuration. -/
def default_config : Config := {}

/-- A detected anomaly.  The `id`, `timestamp` and `description` fields
(wall-clock reads and formatted strings) and `expected_range` are
omitted; every remaining field is carried verbatim. -/
structure Anomaly where
  type : String
  agent_id : Option String := none
  metric : String
  value : ℚ
  severity : String
  confidence : ℚ
  detection_method : String
deriving DecidableEq

/-- Python `baseline.get(k, dflt)` on the per-metric baseline dicts. -/
def dget (d : List (String × ℚ)) (k : String) (dflt : ℚ) : ℚ :=
  (alookup d k).getD dflt

/-- The embedding of `_load_baseline_metrics`: the static seed baselines. -/
def load_baseline_metrics : List (String × List (String × ℚ)) :=
  [("cpu_usage", [("mean", 45), ("std", 15)]),
   ("memory_usage", [("mean", 60), ("std", 20)]),
   ("response_time", [("mean", 250), ("std", 50)]),
   ("error_rate", [("mean", 0.02), ("std", 0.01)]),
   ("request_count", [("mean", 1000), ("std", 200)])]

/-- The embedding of `_is_anomalous`. -/
def is_anomalous (cfg : Config) (baseline_metrics : List (String × List (String × ℚ)))
    (metric_name : String) (value : ℚ) : Bool :=
  match alookup baseline_metrics metric_name with
  | none => false
  | some baseline =>
      let mean := dget baseline "mean" 0
      let std := dget baseline "std" 1
      decide (|value - mean| > std * cfg.threshold_multiplier)

/-- The embedding of `_get_expected_range` (the `min`/`max` pair of the
statistical anomaly's `expected_range` dict). -/
def get_expected_range (cfg : Config)
    (baseline_metrics : List (String × List (String × ℚ)))
    (metric_name : String) : ℚ × ℚ :=
  match alookup baseline_metrics metric_name with
  | none => (0, 100)
  | some baseline =>
      let mean := dget baseline "mean" 0
      let std := dget baseline "std" 1
      (mean - std * cfg.threshold_multiplier, mean + std * cfg.threshold_multiplier)

/-- The embedding of `_calculate_severity`. -/
def calculate_severity (baseline_metrics : List (String × List (String × ℚ)))
    (metric_name : String) (value : ℚ) : String :=
  match alookup baseline_metrics metric_name with
  | none => "low"
  | some baseline =>
      let mean := dget baseline "mean" 0
      let std := dget baseline "std" 1
      let deviation := if std > 0 then |value - mean| / std else 0
      if deviation > 4 then "critical"
      else if deviation > 3 then "high"
      else if deviation > 2 then "medium"
      else "low"

/-- One iteration of the `_detect_statistical_anomalies` loop: the anomaly
produced (or not) for one metrics entry. -/
def stat_entry (cfg : Config) (baseline_metrics : List (String × List (String × ℚ)))
    (kv : String × MetricValue) : Option Anomaly :=
  match kv.2 with
  | .other => none
  | .num value =>
      if is_anomalous cfg baseline_metrics kv.1 value then
        some { type := "statistical_outlier"
               metric := kv.1
               value := value
               severity := calculate_severity baseline_metrics kv.1 value
               confidence := 0.85
               detection_method := "statistical_analysis" }
      else none

/-- The embedding of `_detect_statistical_anomalies`. -/
def detect_statistical_anomalies (cfg : Config)
    (baseline_metrics : List (String × List (String × ℚ)))
    (metrics : List (String × MetricValue)) : List Anomaly :=
  metrics.filterMap (stat_entry cfg baseline_metrics)

/-- A learned per-agent pattern (`_learn_baseline_patterns`). -/
structure AgentPattern where
  count : Nat
  execution_times : List ℚ
  rate_per_hour : ℚ
  avg_execution_time : ℚ
deriving DecidableEq

/-- Mean of a rational list (`statistics.mean`; only ever applied to
nonempty lists, as in the source). -/
def qmean (l : List ℚ) : ℚ := l.sum / l.length

/-- Keep the first occurrence of each element, in order — how iterating a
Python dict visits its keys (insertion order). -/
def dedup_first : List String → List String
  | [] => []
  | x :: xs => x :: (dedup_first xs).filter (fun y => y ≠ x)

/-- The span of the activity window in hours, clamped to 1 when all
timestamps coincide (`... if max_ts > min_ts else 1.0`). -/
def window_hours (a0 : Activity) (rest : List Activity) : ℚ :=
  let tss := (a0 :: rest).map (fun a => a.ts)
  let min_ts := tss.foldl min a0.ts
  let max_ts := tss.foldl max a0.ts
  if min_ts < max_ts then max_ts - min_ts else 1

/-- The window span of a recent-activity list (the empty case never feeds
a rate, since the detectors return before computing it). -/
def recent_duration : List Activity → ℚ
  | [] => 1
  | a0 :: rest => window_hours a0 rest

/-- The mutable state of the service that the claims touch.
`pattern_cache` holds the learned `agent_patterns` map; since
`_learn_baseline_patterns` always fails at its first statement (the
awaited query raises `TypeError`, caught at line 301), the shipped code
never moves this field off its initial empty value. -/
structure ServiceState where
  config : Config := {}
  baseline_metrics : List (String × List (String × ℚ)) := []
  pattern_cache : List (String × AgentPattern) := []

/-- The embedding of one `_learn_baseline_patterns` call as it runs: the
first statement `await activity_logger.get_activities(limit=500)` (line
254) awaits the synchronous `get_activities` and raises `TypeError`
unconditionally; the handler at line 301 only logs it, so the method
returns with the service state untouched.  The pattern-learning text
after the query (agent counts, rates per hour, average execution times)
is dead code and is not reproduced here, since no input reaches it. -/
def learn_baseline_patterns_run (s : ServiceState) : ServiceState := s

/-- `_is_anomalous` as the service runs it: it reads `self.baseline_metrics`. -/
def is_anomalous_state (s : ServiceState) (metric_name : String) (value : ℚ) : Bool :=
  is_anomalous s.config s.baseline_metrics metric_name value

/-- Number of window events of one agent (`agent_activity_counts`). -/
def agent_count (acts : List Activity) (ag : String) : Nat :=
  (acts.filter (fun a => a.agent_id == ag)).length

/-- Whether an event feeds `error_counts`: critical- or high-severity, or
an error-type action (line 355). -/
def is_error_event (a : Activity) : Bool :=
  (a.severity == "critical" || a.severity == "high") || a.action_type == "error"

/-- Number of window error events of one agent (`error_counts`). -/
def agent_error_count (acts : List Activity) (ag : String) : Nat :=
  (acts.filter (fun a => a.agent_id == ag && is_error_event a)).length

/-- One iteration of the activity-level loop (lines 359-392): the rate
anomaly produced (or not) for one agent. -/
def rate_entry (cfg : Config) (patterns : List (String × AgentPattern))
    (acts : List Activity) (duration : ℚ) (ag : String) : Option Anomaly :=
  let recent_rate := (agent_count acts ag : ℚ) / duration
  let baseline_rate :=
    ((alookup patterns ag).map (fun p => p.rate_per_hour)).getD 10
  if recent_rate > baseline_rate * cfg.activity_multiplier_high then
    some { type := "activity_pattern"
           agent_id := some ag
           metric := "activity_rate_per_hour"
           value := recent_rate
           severity := "medium"
           confidence := 0.78
           detection_method := "pattern_analysis" }
  else if recent_rate < baseline_rate * cfg.activity_multiplier_low
      && baseline_rate > 5 then
    some { type := "activity_pattern"
           agent_id := some ag
           metric := "activity_rate_per_hour"
           value := recent_rate
           severity := "low"
           confidence := 0.65
           detection_method := "pattern_analysis" }
  else none

/-- One iteration of the error-rate loop (lines 394-412): the error
anomaly produced (or not) for one agent of `error_counts`.  The
`agent_activity_counts.get(agent_id, 1)` default never fires, since every
agent with an error event also has an activity count. -/
def error_entry (cfg : Config) (acts : List Activity) (ag : String) :
    Option Anomaly :=
  let error_rate := (agent_error_count acts ag : ℚ) / (agent_count acts ag : ℚ)
  if error_rate > cfg.error_rate_threshold then
    some { type := "error_pattern"
           agent_id := some ag
           metric := "error_rate"
           value := error_rate
           severity := "high"
           confidence := 0.92
           detection_method := "error_analysis" }
  else none

/-- The body of `_detect_activity_pattern_anomalies`, parameterized by
the outcome of its ledger query (line 332); the surrounding `try/except`
turns a failed query into the anomalies gathered so far, namely none.
In the shipped code the query `await`s the synchronous `get_activities`
and always raises `TypeError`, so only the `.error` case is reachable
(see `detect_activity_pattern_anomalies_run`); the `.ok` case is the
method's dead post-query text, kept to state what the method would do
were the query repaired. -/
def detect_activity_pattern_anomalies (cfg : Config)
    (patterns : List (String × AgentPattern)) :
    Except String (List Activity) → List Anomaly
  | .error _ => []
  | .ok [] => []
  | .ok (a0 :: rest) =>
      let acts := a0 :: rest
      let duration := recent_duration acts
      let agents := dedup_first (acts.map (fun a => a.agent_id))
      let error_agents :=
        dedup_first ((acts.filter is_error_event).map (fun a => a.agent_id))
      agents.filterMap (rate_entry cfg patterns acts duration)
        ++ error_agents.filterMap (error_entry cfg acts)

/-- The body of `_detect_behavioral_anomalies`, parameterized by the
outcome of its decision-activities ledger query (line 425).  In the
shipped code that query always raises `TypeError` (awaited synchronous
`get_activities`), so only the `.error` case is reachable (see
`detect_behavioral_anomalies_run`); the `.ok` case is the dead
post-query text.  In its execution-time branch, when
`pattern_cache['agent_patterns']` holds a key `avg_execution_time` the
Python default `2000.0` is replaced by that dict and the `>` comparison
raises `TypeError`, which the enclosing handler catches with the
confidence anomaly already collected. -/
def detect_behavioral_anomalies (patterns : List (String × AgentPattern)) :
    Except String (List Activity) → List Anomaly
  | .error _ => []
  | .ok recent =>
      if recent.length < 5 then []
      else
        let confidence_scores := recent.filterMap (fun a => a.confidence)
        let execution_times := recent.filterMap (fun a => a.execution_time)
        let conf_anoms :=
          if confidence_scores.isEmpty then []
          else if qmean confidence_scores < 0.5 then
            [{ type := "behavioral_anomaly"
               metric := "decision_confidence"
               value := qmean confidence_scores
               severity := "medium"
               confidence := 0.80
               detection_method := "behavioral_analysis" }]
          else []
        if execution_times.isEmpty then conf_anoms
        else
          match alookup patterns "avg_execution_time" with
          | some _ => conf_anoms
          | none =>
              if qmean execution_times > 2000 * 2.5 then
                conf_anoms ++
                  [{ type := "performance_anomaly"
                     metric := "execution_time"
                     value := qmean execution_times
                     severity := "medium"
                     confidence := 0.88
                     detection_method := "performance_analysis" }]
              else conf_anoms

/-- The five-minute bucket of a timestamp
(`timestamp.replace(minute=(minute // 5) * 5, second=0, microsecond=0)`,
as a bucket index: hours times 12, floored). -/
def bucket (t : ℚ) : ℤ := ⌊t * 12⌋

/-- The body of `_detect_correlation_anomalies`, parameterized by the
outcome of its ledger query (line 497), which in the shipped code always
raises `TypeError`: only the `.error` case is reachable (see
`detect_correlation_anomalies_run`), and the `.ok` case is the dead
post-query text.  Agents are visited in first-appearance order; the
per-window agent sets are compared by membership, as Python sets are. -/
def detect_correlation_anomalies (cfg : Config) :
    Except String (List Activity) → List Anomaly
  | .error _ => []
  | .ok recent =>
      if recent.length < 10 then []
      else
        let windows := (recent.map (fun a => bucket a.ts)).dedup
        let agents_in := fun (w : ℤ) =>
          dedup_first ((recent.filter (fun a => bucket a.ts == w)).map
            (fun a => a.agent_id))
        let all_agents := dedup_first (recent.map (fun a => a.agent_id))
        let alone_count := fun (ag : String) =>
          (windows.filter (fun w => agents_in w == [ag])).length
        let total_windows := fun (ag : String) =>
          (windows.filter (fun w => ag ∈ agents_in w)).length
        all_agents.filterMap (fun ag =>
          if 5 < total_windows ag then
            let isolation_rate := (alone_count ag : ℚ) / (total_windows ag : ℚ)
            if isolation_rate > cfg.isolation_rate_threshold then
              some { type := "correlation_anomaly"
                     agent_id := some ag
                     metric := "isolation_rate"
                     value := isolation_rate
                     severity := "low"
                     confidence := 0.65
                     detection_method := "correlation_analysis" }
            else none
          else none)

/-- The embedding of `_count_by_severity` (an anomaly whose severity is
outside the four buckets is not counted, exactly as in the source). -/
def count_by_severity (anomalies : List Anomaly) : List (String × Nat) :=
  [("critical", (anomalies.filter (fun a => a.severity == "critical")).length),
   ("high", (anomalies.filter (fun a => a.severity == "high")).length),
   ("medium", (anomalies.filter (fun a => a.severity == "medium")).length),
   ("low", (anomalies.filter (fun a => a.severity == "low")).length)]

/-- The body of `_gather_system_metrics`, parameterized by the outcome
of its ledger query (line 575): it degrades to zeros when the query
fails or is empty.  In the shipped code the query always raises
`TypeError`, so the method always returns the zeroed metrics (see
`gather_system_metrics_run`); the aggregation over activities is dead
post-query text. -/
def gather_system_metrics :
    Except String (List Activity) → List (String × MetricValue)
  | .error _ =>
      [("activity_count", .num 0), ("error_rate", .num 0),
       ("avg_execution_time", .num 0), ("active_agents", .num 0)]
  | .ok [] =>
      [("activity_count", .num 0), ("error_rate", .num 0),
       ("avg_execution_time", .num 0), ("active_agents", .num 0)]
  | .ok acts =>
      let total := acts.length
      let error_count := (acts.filter is_error_event).length
      let error_rate := (error_count : ℚ) / (total : ℚ)
      let execution_times := acts.filterMap (fun a => a.execution_time)
      let avg_execution_time :=
        if execution_times.isEmpty then 0 else qmean execution_times
      let active_agents := (dedup_first (acts.map (fun a => a.agent_id))).length
      [("activity_count", .num (total : ℚ)),
       ("error_rate", .num error_rate),
       ("avg_execution_time", .num avg_execution_time),
       ("active_agents", .num (active_agents : ℚ)),
       ("recent_errors", .num (error_count : ℚ)),
       ("activity_per_agent",
        .num (if 0 < active_agents then (total : ℚ) / (active_agents : ℚ) else 0))]

/-- The outside world one `detect_anomalies` call sees: the optional
caller-supplied metrics, the outcome of each ledger query, and
`top_fault`, an exception raised inside the outer `try` body by anything
it awaits (the embedding of the outer exception handler's trigger).  In
the shipped code every query outcome is the `await` `TypeError`;
statements quantified over all worlds hold a fortiori of that one. -/
structure World where
  metrics : Option (List (String × MetricValue)) := none
  gather_q : Except String (List Activity) := .ok []
  pattern_q : Except String (List Activity) := .ok []
  behavioral_q : Except String (List Activity) := .ok []
  correlation_q : Except String (List Activity) := .ok []
  top_fault : Option String := none

/-- The dict `detect_anomalies` returns (its wall-clock `timestamp` field
omitted; every anomaly carries a `confidence`, so the
`a.get('confidence', 0.5)` default never fires in the average). -/
structure DetectResult where
  anomalies : List Anomaly
  total_anomalies : Nat
  severity_breakdown : List (String × Nat)
  methods_used : List String
  avg_confidence : ℚ
  error : Option String
deriving DecidableEq

/-- The embedding of `detect_anomalies`: gather metrics when none are
passed, run the four strategies, concatenate; on an exception escaping the
body, return the zeroed, error-annotated result of the handler. -/
def detect_anomalies (cfg : Config)
    (baseline_metrics : List (String × List (String × ℚ)))
    (patterns : List (String × AgentPattern)) (w : World) : DetectResult :=
  match w.top_fault with
  | some e =>
      { anomalies := []
        total_anomalies := 0
        severity_breakdown := [("critical", 0), ("high", 0), ("medium", 0), ("low", 0)]
        methods_used := []
        avg_confidence := 0
        error := some e }
  | none =>
      let metrics :=
        match w.metrics with
        | some m => m
        | none => gather_system_metrics w.gather_q
      let anomalies :=
        detect_statistical_anomalies cfg baseline_metrics metrics
          ++ detect_activity_pattern_anomalies cfg patterns w.pattern_q
          ++ detect_behavioral_anomalies patterns w.behavioral_q
          ++ detect_correlation_anomalies cfg w.correlation_q
      { anomalies := anomalies
        total_anomalies := anomalies.length
        severity_breakdown := count_by_severity anomalies
        methods_used := ["statistical", "pattern", "behavioral", "correlation"]
        avg_confidence :=
          if anomalies.isEmpty then 0
          else qmean (anomalies.map (fun a => a.confidence))
        error := none }

/-! ## The methods as they actually execute

Every ledger query of the anomaly engine is `await
activity_logger.get_activities(...)` on the synchronous `get_activities`,
which raises `TypeError` before any result is produced.  Fixing each
body's query argument to that error gives the methods as the shipped
code runs them, for every ledger state. -/

/-- The `TypeError` every `await activity_logger.get_activities(...)`
raises: `get_activities` is a plain synchronous method returning a list,
and a list is not awaitable. -/
def await_type_error : String := "TypeError: object list is not awaitable"

/-- `_detect_activity_pattern_anomalies` as it runs: the query raises,
the handler at line 414 absorbs it, no anomaly is ever produced. -/
def detect_activity_pattern_anomalies_run (cfg : Config)
    (patterns : List (String × AgentPattern)) : List Anomaly :=
  detect_activity_pattern_anomalies cfg patterns (.error await_type_error)

/-- `_detect_behavioral_anomalies` as it runs: the query raises, the
handler at line 486 absorbs it, no anomaly is ever produced. -/
def detect_behavioral_anomalies_run
    (patterns : List (String × AgentPattern)) : List Anomaly :=
  detect_behavioral_anomalies patterns (.error await_type_error)

/-- `_detect_correlation_anomalies` as it runs: the query raises, the
handler at line 556 absorbs it, no anomaly is ever produced. -/
def detect_correlation_anomalies_run (cfg : Config) : List Anomaly :=
  detect_correlation_anomalies cfg (.error await_type_error)

/-- `_gather_system_metrics` as it runs: the query raises, the handler
at line 606 absorbs it, the zeroed metrics are always returned. -/
def gather_system_metrics_run : List (String × MetricValue) :=
  gather_system_metrics (.error await_type_error)

/-! ## Concrete scenario inputs -/

/-- A record appended through `log_activity`, with a ledger-assigned
timestamp. -/
def base_record : ActivityRecord :=
  (log_activity [] { agent_id := "agent-1", action_type := "analysis",
                     message := "baseline scan" }
     "2024-01-01T00:00:00" "1704067200.0" true).record

/-- The stored record with only its `severity` mutated in place,
bypassing the append API. -/
def severity_mutated_record : ActivityRecord :=
  { base_record with severity := "critical" }

/-- The stored record with only its `message` mutated in place. -/
def message_mutated_record : ActivityRecord :=
  { base_record with message := "tampered" }

/-- A stored record carrying a literal hash value. -/
def rec_x : ActivityRecord :=
  ⟨"x1", "2024-01-01T00:00:00", "agent-1", "analysis", "info", "m1", [],
   none, none, "aaaaaaaaaaaaaaaa"⟩

/-- A later stored record carrying a literal hash value. -/
def rec_y : ActivityRecord :=
  ⟨"y1", "2024-01-01T01:00:00", "agent-2", "analysis", "info", "m2", [],
   none, none, "bbbbbbbbbbbbbbbb"⟩

/-- `rec_y` with only its stored hash changed. -/
def rec_y_tampered : ActivityRecord := { rec_y with hash := "cccccccccccccccc" }

/-- The service as `initialize` leaves it: seeds loaded, and
`pattern_cache` empty — the learning pass it then awaits fails at its
first statement and stores nothing. -/
def seeded_state : ServiceState := { baseline_metrics := load_baseline_metrics }

/-- Five decision events whose metadata confidence is 0.2. -/
def five_low_decisions : List Activity :=
  List.replicate 5 ⟨"agent-a", "decision", "medium", 0, none, some 0.2⟩

/-- A window holding a single high-severity, non-error-type event. -/
def one_high_act : List Activity :=
  [⟨"agent-a", "analysis", "high", 0, none, none⟩]

/-- A window holding a single critical-severity error-type event: the
claimed error ratio (critical-severity or error-type over total) is 1. -/
def one_critical_act : List Activity :=
  [⟨"agent-a", "error", "critical", 0, none, none⟩]

/-- A window of 31 events of one previously-unseen agent at one instant
(window span clamps to one hour, so the observed rate is 31/hour). -/
def burst_acts : List Activity :=
  List.replicate 31 ⟨"agent-b", "analysis", "info", 0, none, none⟩

/-- A detection run whose activity-pattern ledger query fails. -/
def world_pattern_down : World := { pattern_q := .error "db down" }

/-- The same run with that query succeeding on an empty window. -/
def world_all_ok : World := {}

/-! ## Supporting lemmas -/

theorem wordToHex_length (w : Nat) : (wordToHex w).length = 8 := by
  simp [wordToHex]

theorem sha256Hex_length (msg : List Nat) : (sha256Hex msg).length = 64 := by
  simp [sha256Hex, sha256Words, wordToHex]

theorem hexChar_mem (n : Nat) (h : n < 16) : hexChar n ∈ hexDigits := by
  interval_cases n <;> decide

theorem sha256Hex_mem {msg : List Nat} {c : Char} (h : c ∈ sha256Hex msg) :
    c ∈ hexDigits := by
  unfold sha256Hex at h
  rw [List.mem_flatten] at h
  obtain ⟨l, hl, hcl⟩ := h
  rw [List.mem_map] at hl
  obtain ⟨w, _, rfl⟩ := hl
  unfold wordToHex at hcl
  rw [List.mem_map] at hcl
  obtain ⟨i, _, rfl⟩ := hcl
  exact hexChar_mem _ (Nat.mod_lt _ (by norm_num))

theorem generate_hash_length (s : String) : (generate_hash s).length = 16 := by
  show ((sha256Hex (strBytes s)).take 16).length = 16
  rw [List.length_take, sha256Hex_length]
  decide

theorem generate_hash_hex {s : String} {c : Char}
    (h : c ∈ (generate_hash s).data) : c ∈ hexDigits :=
  sha256Hex_mem (List.take_subset 16 _ h)

theorem verify_single_valid {r : ActivityRecord} (h : record_valid r = true) :
    (verify_integrity [r]).status = "verified"
      ∧ (verify_integrity [r]).invalid_hashes = [] := by
  simp [verify_integrity, List.filter, h]

theorem verify_single_invalid {r : ActivityRecord} (h : record_valid r = false) :
    (verify_integrity [r]).status = "compromised"
      ∧ (verify_integrity [r]).invalid_hashes = [r.id] := by
  simp [verify_integrity, List.filter, h]

/-! ## The claims -/

/-- C2: the integrity hash is a deterministic function of exactly
`(agent_id, action_type, timestamp, message)`: the hash function returns
the same 16-hex-character SHA-256 truncation on every call, and the hash
`log_activity` stores equals the hash `verify_integrity` recomputes from
the stored fields of the unmodified record. -/
theorem C2_hash_deterministic :
    (∀ agent_id action_type timestamp message : String,
        generate_hash (hash_input agent_id action_type timestamp message)
          = generate_hash (hash_input agent_id action_type timestamp message))
    ∧ (∀ s : String, (generate_hash s).length = 16
        ∧ ∀ c ∈ (generate_hash s).data, c ∈ hexDigits)
    ∧ (∀ (cache : List ActivityRecord) (inp : LogInput) (ts ts_epoch : String)
          (db_ok : Bool),
        ((log_activity cache inp ts ts_epoch db_ok).record).hash
          = generate_hash (hash_input
              ((log_activity cache inp ts ts_epoch db_ok).record).agent_id
              ((log_activity cache inp ts ts_epoch db_ok).record).action_type
              ((log_activity cache inp ts ts_epoch db_ok).record).timestamp
              ((log_activity cache inp ts ts_epoch db_ok).record).message)
        ∧ record_valid ((log_activity cache inp ts ts_epoch db_ok).record) = true) := by
  refine ⟨fun _ _ _ _ => rfl,
    fun s => ⟨generate_hash_length s, fun c hc => generate_hash_hex hc⟩, ?_⟩
  intro cache inp ts ts_epoch db_ok
  cases db_ok <;> simp [log_activity, record_valid]

/-- Witness for C2: evaluated on concrete input `"abc"`, discharging the
membership hypothesis of the hex-character clause. -/
theorem C2_hash_deterministic_witness : '7' ∈ hexDigits :=
  (C2_hash_deterministic.2.1 "abc").2 '7' (by decide)

/-- C10: `log_activity` never raises; when the database write fails it
rolls the transaction back, appends the record to the in-memory cache, and
still returns the complete record (same id, timestamp, defaulted payload
and integrity hash as the persisted one).  Totality of the embedded
function is the no-raise guarantee; the conjuncts identify the fallback
record with the persisted one. -/
theorem C10_log_activity_never_raises :
    ∀ (cache : List ActivityRecord) (inp : LogInput) (ts ts_epoch : String),
      (log_activity cache inp ts ts_epoch false).record
          = (log_activity cache inp ts ts_epoch true).record
      ∧ (log_activity cache inp ts ts_epoch false).rolled_back = true
      ∧ (log_activity cache inp ts ts_epoch true).rolled_back = false
      ∧ (log_activity cache inp ts ts_epoch false).cache
          = update_cache cache (log_activity cache inp ts ts_epoch false).record
      ∧ (log_activity cache inp ts ts_epoch false).record.id
          = "activity-" ++ ts_epoch ++ "-"
              ++ String.mk ((generate_hash
                  (hash_input inp.agent_id inp.action_type ts inp.message)).data.take 8)
      ∧ (log_activity cache inp ts ts_epoch false).record.timestamp = ts
      ∧ (log_activity cache inp ts ts_epoch false).record.data
          = with_payload_defaults inp.action_type (inp.data.getD [])
      ∧ (log_activity cache inp ts ts_epoch false).record.hash
          = generate_hash (hash_input inp.agent_id inp.action_type ts inp.message) :=
  fun _ _ _ _ => ⟨rfl, rfl, rfl, rfl, rfl, rfl, rfl, rfl⟩

/-- C1 fails on the code: the integrity hash covers only `agent_id`,
`action_type`, `timestamp` and `message`, so mutating the persisted
`severity` of a stored record leaves `verify_integrity` reporting
`verified` with an empty invalid-hashes list. -/
theorem C1_tamper_counterexample :
    severity_mutated_record.severity ≠ base_record.severity
    ∧ (verify_integrity [severity_mutated_record]).status = "verified"
    ∧ (verify_integrity [severity_mutated_record]).invalid_hashes = [] := by
  refine ⟨by decide, ?_, ?_⟩
  · exact (verify_single_valid (by decide)).1
  · exact (verify_single_valid (by decide)).2

/-- C1 amended: `verify_integrity` lists a stored record's id and reports
`compromised` exactly when the record's stored hash differs from the hash
recomputed from its stored `(agent_id, action_type, timestamp, message)`;
mutating any other field (`id`, `severity`, `data`, `user_id`,
`session_id`) never changes the verdict, and a mutation of a covered field
is detected whenever it changes the recomputed hash — as the concrete
message mutation does. -/
theorem C1_tamper_detection_amended :
    (∀ r : ActivityRecord,
      ((verify_integrity [r]).status = "compromised"
        ∧ (verify_integrity [r]).invalid_hashes = [r.id])
      ↔ r.hash ≠ generate_hash
          (hash_input r.agent_id r.action_type r.timestamp r.message))
    ∧ (∀ (r : ActivityRecord) (id2 sev2 : String) (data2 : List (String × PVal))
          (uid2 sid2 : Option String),
        record_valid { r with id := id2, severity := sev2, data := data2, user_id := uid2, session_id := sid2 } = record_valid r)
    ∧ ((verify_integrity [message_mutated_record]).status = "compromised"
        ∧ (verify_integrity [message_mutated_record]).invalid_hashes
            = [message_mutated_record.id]) := by
  refine ⟨?_, fun _ _ _ _ _ _ => rfl, ?_⟩
  · intro r
    constructor
    · rintro ⟨hs, -⟩
      intro heq
      have hv : record_valid r = true := by simp [record_valid, heq]
      have h2 := (verify_single_valid hv).1
      rw [h2] at hs
      exact absurd hs (by decide)
    · intro hne
      have hv : record_valid r = false := by
        simp [record_valid]
        exact hne
      exact verify_single_invalid hv
  · exact verify_single_invalid (by decide)

/-- C8: verifying twice on an unchanged ledger yields identical
`system_hash` and `verified_records`; the system digest is the hash of the
concatenation of the per-record hashes in storage order — the timestamp
order of the ledger-assigned, monotone timestamps — so
digests can only differ when some stored hash differs — and the concrete
change of one record's stored hash does change it. -/
theorem C8_verify_idempotent_digest :
    (∀ ledger : List ActivityRecord,
      (verify_integrity ledger).system_hash = (verify_integrity ledger).system_hash
      ∧ (verify_integrity ledger).verified_records
          = (verify_integrity ledger).verified_records)
    ∧ (∀ ledger : List ActivityRecord,
      (verify_integrity ledger).system_hash
        = generate_hash (String.join (ledger.map (fun a => a.hash))))
    ∧ (∀ l1 l2 : List ActivityRecord,
      (verify_integrity l1).system_hash ≠ (verify_integrity l2).system_hash →
      l1.map (fun a => a.hash) ≠ l2.map (fun a => a.hash))
    ∧ (verify_integrity [rec_x, rec_y]).system_hash
        ≠ (verify_integrity [rec_x, rec_y_tampered]).system_hash := by
  refine ⟨fun l => ⟨rfl, rfl⟩, fun l => rfl, ?_, by decide⟩
  intro l1 l2 hne heq
  apply hne
  show generate_hash (String.join (l1.map fun a => a.hash))
      = generate_hash (String.join (l2.map fun a => a.hash))
  rw [heq]

/-- Witness for C8: the digest-difference clause applied at the concrete
tampered ledger, its inequality hypothesis discharged by evaluation. -/
theorem C8_verify_idempotent_digest_witness :
    [rec_x, rec_y].map (fun a => a.hash)
      ≠ [rec_x, rec_y_tampered].map (fun a => a.hash) :=
  C8_verify_idempotent_digest.2.2.1 _ _ C8_verify_idempotent_digest.2.2.2

/-- C3 fails on the code, twice over: `_learn_baseline_patterns` raises
`TypeError` at its first statement (`await` on the synchronous
`get_activities`, line 254), caught at line 301, so a learned baseline
never comes to exist — the one learning operation the engine has leaves
the seeded state untouched, `pattern_cache` stays empty, and the
statistical check of `cpu_usage` at 95 is decided by the static seed
(mean 45, std 15).  No learned value is ever used in preference to a
seed, because there never is one. -/
theorem C3_learned_preference_counterexample :
    learn_baseline_patterns_run seeded_state = seeded_state
    ∧ seeded_state.pattern_cache = []
    ∧ alookup (learn_baseline_patterns_run seeded_state).pattern_cache
        "cpu_usage" = none
    ∧ alookup (learn_baseline_patterns_run seeded_state).baseline_metrics
        "cpu_usage" = some [("mean", 45), ("std", 15)]
    ∧ is_anomalous_state (learn_baseline_patterns_run seeded_state)
        "cpu_usage" 95 = true :=
  ⟨rfl, rfl, rfl, rfl, of_decide_eq_true (by with_unfolding_all rfl)⟩

/-- C3 amended: anomaly detection never uses a learned value in
preference to a static seed.  `_learn_baseline_patterns` is a runtime
no-op (its awaited ledger query always raises `TypeError`, which its
handler only logs), so `pattern_cache` is never populated and the
service state is unchanged by learning; statistical outlier checks read
only `baseline_metrics` — the static seeds, which nothing ever
overrides — and their outcome is independent of `pattern_cache`
entirely. -/
theorem C3_learning_never_overrides_amended :
    ∀ (s : ServiceState) (pc : List (String × AgentPattern)) (k : String)
      (v : ℚ) (metrics : List (String × MetricValue)),
      learn_baseline_patterns_run s = s
      ∧ is_anomalous_state (learn_baseline_patterns_run s) k v
          = is_anomalous_state s k v
      ∧ is_anomalous_state { s with pattern_cache := pc } k v
          = is_anomalous_state s k v
      ∧ detect_statistical_anomalies (learn_baseline_patterns_run s).config
          (learn_baseline_patterns_run s).baseline_metrics metrics
          = detect_statistical_anomalies s.config s.baseline_metrics metrics :=
  fun _ _ _ _ _ => ⟨rfl, rfl, rfl, rfl⟩

/-- C4: with a known baseline of positive std, a numeric metric is
emitted as a `statistical_outlier` iff its absolute deviation from the
baseline mean exceeds std times the default multiplier 2.0; the emitted
anomaly's severity follows the deviation-in-std-units ladder (>4 critical,
>3 high, >2 medium, else low) and its confidence is 0.85; concretely,
`cpu_usage = 95` against the seed (mean 45, std 15) yields exactly one
high-severity `statistical_outlier`. -/
theorem C4_statistical_outlier_rule :
    (∀ (bm : List (String × List (String × ℚ)))
        (metrics : List (String × MetricValue)),
        detect_statistical_anomalies default_config bm metrics
          = metrics.filterMap (stat_entry default_config bm))
    ∧ (∀ (bm : List (String × List (String × ℚ))) (b : List (String × ℚ))
          (k : String) (v : ℚ),
        alookup bm k = some b →
        0 < dget b "std" 1 →
        ((stat_entry default_config bm (k, .num v)).isSome = true
            ↔ |v - dget b "mean" 0| > dget b "std" 1 * 2)
        ∧ ∀ a, stat_entry default_config bm (k, .num v) = some a →
            a.type = "statistical_outlier" ∧ a.metric = k ∧ a.value = v
            ∧ a.confidence = 0.85
            ∧ (4 < |v - dget b "mean" 0| / dget b "std" 1 → a.severity = "critical")
            ∧ (3 < |v - dget b "mean" 0| / dget b "std" 1 →
                |v - dget b "mean" 0| / dget b "std" 1 ≤ 4 → a.severity = "high")
            ∧ (2 < |v - dget b "mean" 0| / dget b "std" 1 →
                |v - dget b "mean" 0| / dget b "std" 1 ≤ 3 → a.severity = "medium")
            ∧ (|v - dget b "mean" 0| / dget b "std" 1 ≤ 2 → a.severity = "low"))
    ∧ detect_statistical_anomalies default_config load_baseline_metrics
          [("cpu_usage", .num 95)]
        = [{ type := "statistical_outlier", agent_id := none, metric := "cpu_usage", value := 95, severity := "high", confidence := 0.85, detection_method := "statistical_analysis" }] := by
  refine ⟨fun _ _ => rfl, ?_, of_decide_eq_true (by with_unfolding_all rfl)⟩
  intro bm b k v hb hstd
  have hmul : default_config.threshold_multiplier = 2 := rfl
  constructor
  · by_cases hc : |v - dget b "mean" 0| > dget b "std" 1 * 2
    · simp [stat_entry, is_anomalous, hb, hmul, hc]
    · simp [stat_entry, is_anomalous, hb, hmul, hc]
  · intro a ha
    unfold stat_entry at ha
    simp only [is_anomalous, hb, hmul] at ha
    split at ha
    · obtain rfl := Option.some.inj ha
      refine ⟨rfl, rfl, rfl, rfl, ?_, ?_, ?_, ?_⟩ <;>
        · intros
          show calculate_severity bm k v = _
          unfold calculate_severity
          rw [hb]
          simp only [if_pos hstd]
          split_ifs <;> first | rfl | linarith
    · exact absurd ha (by simp)

/-- Witness for C4: the emission clause evaluated at the seeded
`cpu_usage` baseline and observed value 95, hypotheses discharged by
evaluation. -/
theorem C4_statistical_outlier_rule_witness :
    (stat_entry default_config load_baseline_metrics
      ("cpu_usage", .num 95)).isSome = true :=
  ((C4_statistical_outlier_rule.2.1 load_baseline_metrics
      [("mean", 45), ("std", 15)] "cpu_usage" 95 rfl
      (of_decide_eq_true (by with_unfolding_all rfl))).1).mpr
    (of_decide_eq_true (by with_unfolding_all rfl))

/-- C5 is right about the intended logic but the code is broken:
`_detect_behavioral_anomalies` awaits the synchronous `get_activities`
(line 425), so it raises `TypeError` before the five-event floor is ever
checked and, with the handler at line 486 absorbing it, returns no
anomalies for every ledger state.  The first conjunct evaluates the
method as it runs; the second evaluates its dead post-query text at the
claim's own scenario (five decision events of confidence 0.2), which
yields exactly the claimed single medium-severity `behavioral_anomaly` —
the claim describes the evident intent, and the spurious `await` is the
slip. -/
theorem C5_behavioral_never_evaluates :
    (∀ (patterns : List (String × AgentPattern)),
        detect_behavioral_anomalies_run patterns = [])
    ∧ detect_behavioral_anomalies [] (.ok five_low_decisions)
        = [{ type := "behavioral_anomaly", agent_id := none, metric := "decision_confidence", value := 0.2, severity := "medium", confidence := 0.80, detection_method := "behavioral_analysis" }] :=
  ⟨fun _ => rfl, of_decide_eq_true (by with_unfolding_all rfl)⟩

/-- C6 fails on the code: `_detect_activity_pattern_anomalies` awaits
the synchronous `get_activities` (line 332) and always raises
`TypeError`, absorbed at line 414, so it emits nothing for any ledger
state — in particular for a window holding one critical error-type
event, where the claim's ratio is 1 > 0.2 and the claim demands an
`error_pattern` anomaly. -/
theorem C6_error_pattern_counterexample :
    detect_activity_pattern_anomalies_run default_config [] = []
    ∧ ((one_critical_act.filter (fun a =>
          a.severity == "critical" || a.action_type == "error")).length : ℚ)
        / (one_critical_act.length : ℚ) > 0.2 :=
  ⟨rfl, of_decide_eq_true (by with_unfolding_all rfl)⟩

/-- C6 amended: activity-pattern detection never emits an
`error_pattern` anomaly: its awaited ledger query always raises
`TypeError`, which its handler absorbs, so the method returns no
anomalies for every configuration, pattern cache and ledger state.  The
error-ratio rule exists only in the method's dead post-query text, and
even that text diverges from the claim: its numerator also counts
high-severity events, as the last two conjuncts show on a window holding
one high-severity `analysis` event (dead-text emission with severity
`high` and confidence 0.92 although the claim's critical-or-error-type
ratio is 0). -/
theorem C6_error_pattern_amended :
    (∀ (cfg : Config) (patterns : List (String × AgentPattern)) (e : String),
        detect_activity_pattern_anomalies cfg patterns (.error e) = [])
    ∧ (∀ (cfg : Config) (patterns : List (String × AgentPattern)),
        detect_activity_pattern_anomalies_run cfg patterns = [])
    ∧ ((detect_activity_pattern_anomalies default_config [] (.ok one_high_act)).filter
          (fun a => a.type == "error_pattern"))
        = [{ type := "error_pattern", agent_id := some "agent-a", metric := "error_rate", value := 1, severity := "high", confidence := 0.92, detection_method := "error_analysis" }]
    ∧ ((one_high_act.filter (fun a =>
          a.severity == "critical" || a.action_type == "error")).length : ℚ)
        / (one_high_act.length : ℚ) = 0 :=
  ⟨fun _ _ _ => rfl, fun _ _ => rfl,
   of_decide_eq_true (by with_unfolding_all rfl),
   of_decide_eq_true (by with_unfolding_all rfl)⟩

/-- C9 is right about the intended logic but the code is broken: the
same dead query (line 332) means no agent is ever flagged unusually high
or low, whatever its observed rate.  The first conjunct evaluates the
method as it runs; the second evaluates its dead post-query text at the
claim's scenario — 31 events of a previously-unseen agent in a window
whose span clamps to one hour, observed rate 31/hour — where the default
baseline 10.0 and the 30/hour bound produce exactly the unusually-high
flag the claim describes, so the claim matches the evident intent and
the spurious `await` is the slip. -/
theorem C9_default_baseline_dead_code :
    (∀ (cfg : Config) (patterns : List (String × AgentPattern)),
        detect_activity_pattern_anomalies_run cfg patterns = [])
    ∧ ((detect_activity_pattern_anomalies default_config [] (.ok burst_acts)).filter
          (fun a => a.type == "activity_pattern"))
        = [{ type := "activity_pattern", agent_id := some "agent-b", metric := "activity_rate_per_hour", value := 31, severity := "medium", confidence := 0.78, detection_method := "pattern_analysis" }] :=
  ⟨fun _ _ => rfl, of_decide_eq_true (by with_unfolding_all rfl)⟩

theorem detect_anomalies_ok (cfg : Config)
    (bm : List (String × List (String × ℚ)))
    (patterns : List (String × AgentPattern)) (w : World)
    (h : w.top_fault = none) :
    detect_anomalies cfg bm patterns w =
      (let metrics :=
        match w.metrics with
        | some m => m
        | none => gather_system_metrics w.gather_q
       let anomalies :=
        detect_statistical_anomalies cfg bm metrics
          ++ detect_activity_pattern_anomalies cfg patterns w.pattern_q
          ++ detect_behavioral_anomalies patterns w.behavioral_q
          ++ detect_correlation_anomalies cfg w.correlation_q
       { anomalies := anomalies, total_anomalies := anomalies.length, severity_breakdown := count_by_severity anomalies, methods_used := ["statistical", "pattern", "behavioral", "correlation"], avg_confidence := if anomalies.isEmpty then 0 else qmean (anomalies.map (fun a => a.confidence)), error := none }) := by
  unfold detect_anomalies
  rw [h]

/-- C7 fails on its last clause: a run whose activity-pattern ledger
query fails is indistinguishable from a fully successful run on an empty
window — the result carries no annotation of which strategies failed, its
`error` field stays absent, and `methods_used` always lists all four
strategies. -/
theorem C7_no_failure_annotation_counterexample :
    detect_anomalies default_config load_baseline_metrics [] world_pattern_down
      = detect_anomalies default_config load_baseline_metrics [] world_all_ok
    ∧ (detect_anomalies default_config load_baseline_metrics []
        world_pattern_down).error = none
    ∧ (detect_anomalies default_config load_baseline_metrics []
        world_pattern_down).methods_used
        = ["statistical", "pattern", "behavioral", "correlation"] :=
  of_decide_eq_true (by with_unfolding_all rfl)

/-- C7 amended: `detect_anomalies` never propagates a failure — an
exception escaping the body yields the zeroed result annotated with the
`error` field, and a failing strategy query is absorbed by that strategy
(returning no anomalies) while the other strategies still contribute and
the call succeeds with `error` absent; the result does not record which
strategies failed (they are only logged). -/
theorem C7_detect_never_raises_amended :
    ∀ (cfg : Config) (bm : List (String × List (String × ℚ)))
      (patterns : List (String × AgentPattern)) (w : World) (e : String),
      (w.top_fault = some e →
        detect_anomalies cfg bm patterns w
          = { anomalies := [], total_anomalies := 0, severity_breakdown := [("critical", 0), ("high", 0), ("medium", 0), ("low", 0)], methods_used := [], avg_confidence := 0, error := some e })
      ∧ (w.top_fault = none →
          (detect_anomalies cfg bm patterns { w with pattern_q := .error e }).anomalies
            = detect_statistical_anomalies cfg bm
                (match w.metrics with
                 | some m => m
                 | none => gather_system_metrics w.gather_q)
              ++ detect_behavioral_anomalies patterns w.behavioral_q
              ++ detect_correlation_anomalies cfg w.correlation_q
          ∧ (detect_anomalies cfg bm patterns { w with pattern_q := .error e }).error = none
          ∧ (detect_anomalies cfg bm patterns { w with behavioral_q := .error e }).error = none
          ∧ (detect_anomalies cfg bm patterns { w with correlation_q := .error e }).error = none
          ∧ (detect_anomalies cfg bm patterns { w with gather_q := .error e }).error = none
          ∧ (detect_anomalies cfg bm patterns { w with pattern_q := .error e }).methods_used
              = ["statistical", "pattern", "behavioral", "correlation"]) := by
  intro cfg bm patterns w e
  constructor
  · intro h
    unfold detect_anomalies
    rw [h]
  · intro h
    refine ⟨?_, ?_, ?_, ?_, ?_, ?_⟩
    · rw [detect_anomalies_ok cfg bm patterns { w with pattern_q := .error e } h]
      show detect_statistical_anomalies cfg bm _ ++ [] ++ _ ++ _ = _
      rw [List.append_nil]
    · rw [detect_anomalies_ok cfg bm patterns { w with pattern_q := .error e } h]
    · rw [detect_anomalies_ok cfg bm patterns { w with behavioral_q := .error e } h]
    · rw [detect_anomalies_ok cfg bm patterns { w with correlation_q := .error e } h]
    · rw [detect_anomalies_ok cfg bm patterns { w with gather_q := .error e } h]
    · rw [detect_anomalies_ok cfg bm patterns { w with pattern_q := .error e } h]

/-- Witness for C7 amended: the failure branch and one strategy-isolation
branch, instantiated at concrete worlds with their hypotheses discharged
by evaluation. -/
theorem C7_detect_never_raises_amended_witness :
    detect_anomalies default_config load_baseline_metrics []
        { top_fault := some "boom" }
      = { anomalies := [], total_anomalies := 0, severity_breakdown := [("critical", 0), ("high", 0), ("medium", 0), ("low", 0)], methods_used := [], avg_confidence := 0, error := some "boom" }
    ∧ (detect_anomalies default_config load_baseline_metrics []
        { world_all_ok with pattern_q := .error "db down" }).error = none :=
  ⟨(C7_detect_never_raises_amended default_config load_baseline_metrics []
      { top_fault := some "boom" } "boom").1 rfl,
   ((C7_detect_never_raises_amended default_config load_baseline_metrics []
      world_all_ok "db down").2 rfl).2.1⟩

/-- Witness for C1 amended: the characterization applied at the record
with a literally tampered stored hash, its inequality discharged by
evaluation. -/
theorem C1_tamper_detection_amended_witness :
    (verify_integrity [rec_y_tampered]).status = "compromised"
      ∧ (verify_integrity [rec_y_tampered]).invalid_hashes = [rec_y_tampered.id] :=
  (C1_tamper_detection_amended.1 rec_y_tampered).mpr (by decide)

/-- Witness for C10: the fallback path applied at a concrete input. -/
theorem C10_log_activity_never_raises_witness :
    (log_activity [] { agent_id := "agent-1", action_type := "analysis", message := "baseline scan" } "2024-01-01T00:00:00" "1704067200.0" false).record
      = (log_activity [] { agent_id := "agent-1", action_type := "analysis", message := "baseline scan" } "2024-01-01T00:00:00" "1704067200.0" true).record :=
  (C10_log_activity_never_raises []
    { agent_id := "agent-1", action_type := "analysis", message := "baseline scan" }
    "2024-01-01T00:00:00" "1704067200.0").1

end Intellisynth
